import Mathlib

/-!
Verification of the Cappocas frontend (`frontend/src/main.js`) against its
specification.  The JavaScript functions are shallowly embedded as pure Lean
functions: DOM reads become explicit arguments, `this.*` mutable state becomes
explicit state values threaded in and out, and network calls (`api.*`,
`fetch`) become environment parameters of type `Except String _` or function
parameters supplied by the caller, so that each handler's observable behaviour
(which requests it issues, what it renders, how it updates state) is a value
we can reason about.
-/

/-- A Vinted taxonomy category as delivered by the backend
(`result.suggested_category`): the fields read by `main.js` are `name`,
`path` and `full_path`. -/
structure Category where
  name : String
  path : String
  full_path : String
deriving DecidableEq, Repr

/-- The JSON payload returned by `POST /api/categories/analyze`
(`api.analyzeCategory`), as read by `analyzeVintedCategory`. -/
structure ClassificationResult where
  suggested_category : Option Category
  confidence : ℚ
  message : Option String
  detected_gender : Option String
  alternatives : List Category
deriving DecidableEq, Repr

/-- JavaScript `String.prototype.trim`: strip leading and trailing
whitespace.  Implemented over the character list so that it reduces in the
kernel (the core `String.trim` is well-founded and does not). -/
def jsTrim (s : String) : String :=
  String.mk (((s.data.dropWhile Char.isWhitespace).reverse.dropWhile
    Char.isWhitespace).reverse)

/-- JavaScript `v || d` for an optional string `v`: both `undefined`/`null`
and the empty string are falsy and select the default `d`. -/
def jsOrElse (v : Option String) (d : String) : String :=
  match v with
  | none => d
  | some s => if s = "" then d else s

/-- The CSS confidence class computed in `analyzeVintedCategory`
(main.js lines 258-268): start from `confidence-low`, upgrade to
`confidence-high` when `confidence >= 0.7`, else to `confidence-medium`
when `confidence >= 0.4`. -/
def confidenceClass (confidence : ℚ) : String :=
  if confidence ≥ 7/10 then "confidence-high"
  else if confidence ≥ 4/10 then "confidence-medium"
  else "confidence-low"

/-- The human-readable confidence tier shown next to the class
(same cascade as `confidenceClass`). -/
def confidenceText (confidence : ℚ) : String :=
  if confidence ≥ 7/10 then "Élevée"
  else if confidence ≥ 4/10 then "Moyenne"
  else "Faible"

/-- The final content of the `#vinted-category-preview` element after
`analyzeVintedCategory` settles (the transient loading state is overwritten
before the function returns). `hintAuto` is the idle hint shown for short
titles, `warn` the warning with the backend message, `analyzeError` the
catch-branch message, and `detected` the rendered category card together
with the data interpolated into it. -/
inductive Preview where
  | hintAuto
  | warn (message : String)
  | analyzeError
  | detected (cat : Category) (confClass : String) (confText : String)
      (percent : ℤ) (gender : Option String) (alternatives : List Category)
deriving DecidableEq, Repr

/-- Observable outcome of one run of `analyzeVintedCategory`: whether (and
with which arguments) `api.analyzeCategory` was called, the final preview
content, and the new value of `this.detectedCategory`. -/
structure AnalyzeOutcome where
  apiCall : Option (String × String)
  preview : Preview
  detectedCategory : Option Category
deriving DecidableEq, Repr

/-- Embedding of `App.analyzeVintedCategory` (main.js lines 239-304).  `titleRaw` and
`descRaw` are the raw input field values, `prevDetected` the current
`this.detectedCategory`, and `apiResult` the response the network would
deliver if `api.analyzeCategory` is reached (`Except.error` for a rejected
promise). -/
def analyzeVintedCategory (titleRaw descRaw : String) (prevDetected : Option Category)
    (apiResult : Except String ClassificationResult) : AnalyzeOutcome :=
  let title := jsTrim titleRaw
  let description := jsTrim descRaw
  if title.length < 3 then
    { apiCall := none, preview := .hintAuto, detectedCategory := prevDetected }
  else
    match apiResult with
    | .error _ =>
      { apiCall := some (title, description), preview := .analyzeError,
        detectedCategory := none }
    | .ok result =>
      match result.suggested_category with
      | some cat =>
        { apiCall := some (title, description),
          preview := .detected cat (confidenceClass result.confidence)
            (confidenceText result.confidence) (round (result.confidence * 100))
            result.detected_gender result.alternatives,
          detectedCategory := some cat }
      | none =>
        { apiCall := some (title, description),
          preview := .warn (jsOrElse result.message "Impossible de détecter la catégorie"),
          detectedCategory := none }

/-- Embedding of `App.translateStatus` (main.js lines 480-491): a literal dictionary of
exactly seven status keys, falling back to the raw status string for any
other key (`translations[status] || status`). -/
def translateStatus (status : String) : String :=
  match status with
  | "draft" => "Brouillon"
  | "pending" => "En attente"
  | "scheduled" => "Planifié"
  | "publishing" => "Publication..."
  | "published" => "Publié"
  | "failed" => "Échec"
  | "deleted" => "Supprimé"
  | _ => status

/-- The debounced trigger installed by `setupEventListeners` (main.js lines
223-236): every `input` event on the title or description field runs
`clearTimeout` on the shared `categoryDebounceTimer` and re-arms it with
`setTimeout(..., delay)`.  Given the (increasing) millisecond timestamps of
the input events of a session, this computes the times at which the armed
timer actually fires (i.e. at which `analyzeVintedCategory` runs): the timer
armed at event time t survives only when no further event arrives within
`delay` ms. -/
def debounceFires (delay : ℕ) : List ℕ → List ℕ
  | [] => []
  | [t] => [t + delay]
  | t1 :: t2 :: ts =>
    if t2 - t1 < delay then debounceFires delay (t2 :: ts)
    else (t1 + delay) :: debounceFires delay (t2 :: ts)

/-- The token state held by `ApiClient` (`this.token`, mirrored in
`localStorage`). -/
structure ApiState where
  token : Option String
deriving DecidableEq, Repr

/-- The `fetch` response as consumed by `ApiClient.request`: its HTTP
status, the `detail` field obtained when the body is read as an error
payload (`none` covers both an absent field and an unparsable body, both of
which make `error.detail` undefined), and the parsed body for the success
path. -/
structure HttpResponse (α : Type) where
  status : ℕ
  errDetail : Option String
  body : α
deriving DecidableEq, Repr

/-- The fetch API `Response.ok` predicate: status in the range 200-299. -/
def responseOk (status : ℕ) : Bool :=
  200 ≤ status && status ≤ 299

/-- Observable outcome of one `ApiClient.request` call: the new token
state, whether the app was redirected to the login page, and either the
thrown error message or the returned data (`none` models the `null`
returned for a 204 response). -/
structure RequestOutcome (α : Type) where
  state : ApiState
  redirectedToLogin : Bool
  result : Except String (Option α)
deriving Repr

/-- Embedding of `ApiClient.request` (main.js lines 26-57), from the point where the
`fetch` response is available: a 401 clears the token, redirects to login
and throws; any other non-ok status throws `error.detail || '...'`; a 204
returns `null`; otherwise the parsed body is returned. -/
def ApiClient.request {α : Type} (st : ApiState) (resp : HttpResponse α) :
    RequestOutcome α :=
  if resp.status = 401 then
    { state := { token := none }, redirectedToLogin := true,
      result := .error "Session expirée" }
  else if !(responseOk resp.status) then
    { state := st, redirectedToLogin := false,
      result := .error (jsOrElse resp.errDetail "Une erreur est survenue") }
  else if resp.status = 204 then
    { state := st, redirectedToLogin := false, result := .ok none }
  else
    { state := st, redirectedToLogin := false, result := .ok (some resp.body) }

/-- A file offered to `handleImageUpload` (the subset of the DOM `File`
object the handler reads: its MIME type; `name` carried along to keep
files distinguishable). -/
structure JsFile where
  name : String
  type : String
deriving DecidableEq, Repr

/-- An uploaded-image record as returned by `POST /api/uploads/images` and
stored in `this.uploadedImages` (`main.js` reads `.id` and `.url`). -/
structure ImageRec where
  id : ℕ
  url : String
deriving DecidableEq, Repr

/-- The MIME-type whitelist of `handleImageUpload` (main.js line 522). -/
def validImageTypes : List String :=
  ["image/jpeg", "image/png", "image/webp", "image/gif"]

/-- A toast notification (`showToast(message, type)`). -/
structure Toast where
  message : String
  type : String
deriving DecidableEq, Repr

/-- Observable outcome of `handleImageUpload`: the files actually sent to
`api.uploadImages` (if any), the new `this.uploadedImages`, and the toasts
shown. -/
structure UploadOutcome where
  uploadRequested : Option (List JsFile)
  newUploadedImages : List ImageRec
  toasts : List Toast
deriving DecidableEq, Repr

/-- Embedding of `App.handleImageUpload` (main.js lines 520-538).  `files` is the file
list from the input/drop event, `uploadedImages` the current
`this.uploadedImages`, and `apiUpload` the environment's response to
`api.uploadImages` (`Except.error` for a rejected promise). -/
def handleImageUpload (files : List JsFile) (uploadedImages : List ImageRec)
    (apiUpload : List JsFile → Except String (List ImageRec)) : UploadOutcome :=
  let validFiles := files.filter fun file => validImageTypes.contains file.type
  if validFiles.length = 0 then
    { uploadRequested := none, newUploadedImages := uploadedImages,
      toasts := [{ message := "Aucun fichier image valide", type := "error" }] }
  else
    match apiUpload validFiles with
    | .error msg =>
      { uploadRequested := some validFiles, newUploadedImages := uploadedImages,
        toasts := [{ message := msg, type := "error" }] }
    | .ok uploaded =>
      { uploadRequested := some validFiles,
        newUploadedImages := uploadedImages ++ uploaded,
        toasts := [{ message := toString uploaded.length ++ " image(s) uploadée(s)",
                     type := "success" }] }

/-- Splits a string at every comma, JavaScript `value.split(',')`.
Implemented structurally over the character list so that it reduces in the
kernel (the core `String.splitOn` is well-founded and does not). -/
def splitCommaAux : List Char → List Char → List String
  | [], acc => [String.mk acc.reverse]
  | c :: cs, acc =>
    if c = ',' then String.mk acc.reverse :: splitCommaAux cs []
    else splitCommaAux cs (c :: acc)

/-- JavaScript `s.split(',')`. -/
def splitComma (s : String) : List String :=
  splitCommaAux s.data []

/-- Browser primitives used by `handleCreateListing` that are outside the
program: `parseFloat` on the price field and
`new Date(value).toISOString()` on the schedule field. -/
structure JsEnv where
  parseFloat : String → ℚ
  toISO : String → String

/-- The raw values of the create-listing form fields read by
`handleCreateListing`. -/
structure CreateForm where
  title : String
  description : String
  priceStr : String
  condition : String
  colorsValue : String
  location : String
  brand : String
  size : String
  scheduleValue : String
  postLeboncoin : Bool
  postVinted : Bool
deriving DecidableEq, Repr

/-- The JSON payload `data` built by `handleCreateListing` (main.js lines
562-584) and sent to `api.createListing`. -/
structure CreateData where
  title : String
  description : String
  price : ℚ
  condition : Option String
  category : Option String
  category_path : Option String
  location : Option String
  brand : Option String
  size : Option String
  colors : Option (List String)
  post_to_leboncoin : Bool
  post_to_vinted : Bool
  image_ids : List ℕ
  scheduled_at : Option String
deriving DecidableEq, Repr

/-- JavaScript `value || null` on a string field. -/
def jsOrNull (s : String) : Option String :=
  if s = "" then none else some s

/-- The payload construction of `handleCreateListing` (main.js lines
558-584): colors are split on commas, trimmed and the empty entries
dropped; optional text fields use `value || null`; the category fields are
projected from `this.detectedCategory` via optional chaining; `image_ids`
maps `this.uploadedImages` to their ids; `scheduled_at` is added only when
the schedule field is non-empty. -/
def buildCreateData (env : JsEnv) (form : CreateForm) (detected : Option Category)
    (uploadedImages : List ImageRec) : CreateData :=
  let colors :=
    if form.colorsValue = "" then none
    else some (((splitComma form.colorsValue).map jsTrim).filter (· ≠ ""))
  { title := form.title
    description := form.description
    price := env.parseFloat form.priceStr
    condition := jsOrNull form.condition
    category := detected.bind fun c => jsOrNull c.name
    category_path := detected.bind fun c => jsOrNull c.path
    location := jsOrNull form.location
    brand := jsOrNull form.brand
    size := jsOrNull form.size
    colors := colors
    post_to_leboncoin := form.postLeboncoin
    post_to_vinted := form.postVinted
    image_ids := uploadedImages.map (·.id)
    scheduled_at :=
      if form.scheduleValue = "" then none
      else some (env.toISO form.scheduleValue) }

/-- The listing returned by `api.createListing` (only `id` is read). -/
structure Listing where
  id : ℕ
deriving DecidableEq, Repr

/-- Observable outcome of `handleCreateListing`: the payload sent to
`api.createListing` (if the request was made at all), the listing id passed
to `api.publishListing` (if that call was made), the toasts shown in
order, and whether the form/state reset at the end of the success path was
reached. -/
structure CreateOutcome where
  requestSent : Option CreateData
  publishRequested : Option ℕ
  toasts : List Toast
  formReset : Bool
deriving DecidableEq, Repr

/-- Embedding of `App.handleCreateListing` (main.js lines 555-617).  `detected` is
`this.detectedCategory`, `uploadedImages` is `this.uploadedImages`;
`apiCreate` and `apiPublish` are the environment's responses to
`api.createListing` / `api.publishListing`.  The Vinted guard (lines
586-590) runs before any request: when Vinted is targeted and no category
was detected, a warning toast is shown and the handler returns. -/
def handleCreateListing (env : JsEnv) (form : CreateForm) (detected : Option Category)
    (uploadedImages : List ImageRec)
    (apiCreate : CreateData → Except String Listing)
    (apiPublish : ℕ → Except String Unit) : CreateOutcome :=
  let data := buildCreateData env form detected uploadedImages
  if data.post_to_vinted && detected.isNone then
    { requestSent := none, publishRequested := none,
      toasts := [{ message := "Impossible de détecter la catégorie Vinted. Veuillez préciser le titre.",
                   type := "warning" }],
      formReset := false }
  else
    match apiCreate data with
    | .error msg =>
      { requestSent := some data, publishRequested := none,
        toasts := [{ message := msg, type := "error" }], formReset := false }
    | .ok listing =>
      if form.scheduleValue = "" then
        match apiPublish listing.id with
        | .error msg =>
          { requestSent := some data, publishRequested := some listing.id,
            toasts := [{ message := "Annonce créée avec succès", type := "success" },
                       { message := msg, type := "error" }],
            formReset := false }
        | .ok _ =>
          { requestSent := some data, publishRequested := some listing.id,
            toasts := [{ message := "Annonce créée avec succès", type := "success" },
                       { message := "Publication lancée", type := "success" }],
            formReset := true }
      else
        { requestSent := some data, publishRequested := none,
          toasts := [{ message := "Annonce créée avec succès", type := "success" }],
          formReset := true }

/-- Sample browser environment for concrete instantiations. -/
def sampleEnv : JsEnv :=
  { parseFloat := fun _ => 0, toISO := fun s => s }

/-- Sample create-listing form targeting Vinted, with no schedule. -/
def sampleForm : CreateForm :=
  { title := "Veste en jean", description := "tbe", priceStr := "10",
    condition := "", colorsValue := "", location := "", brand := "",
    size := "", scheduleValue := "", postLeboncoin := false, postVinted := true }

/-- Sample category as the backend would return it. -/
def sampleCat : Category :=
  { name := "Vestes", path := "femmes/vetements/vestes", full_path := "Femmes > Vêtements > Vestes" }

/-- Sample classification result with no primary candidate. -/
def sampleNoMatch : ClassificationResult :=
  { suggested_category := none, confidence := 0,
    message := some "Aucun mot-clé reconnu", detected_gender := none,
    alternatives := [] }

/-- Sample classification result with a primary candidate of low confidence. -/
def sampleLowMatch : ClassificationResult :=
  { suggested_category := some sampleCat, confidence := 3/10,
    message := none, detected_gender := some "femmes",
    alternatives := [] }

/-- C2: the caller-side length policy of `analyzeVintedCategory`.  When the
trimmed title is shorter than 3 characters the function returns after
rendering the idle hint, without invoking `api.analyzeCategory` and without
touching `this.detectedCategory`; when the trimmed title has length at
least 3, the endpoint is invoked (with the trimmed title and
description). -/
theorem short_title_never_calls_classifier
    (titleRaw descRaw : String) (prev : Option Category)
    (apiResult : Except String ClassificationResult) :
    ((jsTrim titleRaw).length < 3 →
      analyzeVintedCategory titleRaw descRaw prev apiResult =
        { apiCall := none, preview := .hintAuto, detectedCategory := prev }) ∧
    (3 ≤ (jsTrim titleRaw).length →
      (analyzeVintedCategory titleRaw descRaw prev apiResult).apiCall =
        some (jsTrim titleRaw, jsTrim descRaw)) := by
  constructor <;> intro h
  · simp [analyzeVintedCategory, h]
  · have h3 : ¬ ((jsTrim titleRaw).length < 3) := by omega
    rcases apiResult with e | r
    · simp [analyzeVintedCategory, h3]
    · rcases hc : r.suggested_category with _ | cat <;>
        simp [analyzeVintedCategory, h3, hc]

/-- Witness for C2: a 2-character title (after trimming) does not reach the
endpoint; a 4-character one does. -/
theorem short_title_never_calls_classifier_witness :
    ((jsTrim " ab ").length < 3) ∧
    analyzeVintedCategory " ab " "x" (some sampleCat) (.error "down") =
      { apiCall := none, preview := .hintAuto, detectedCategory := some sampleCat } ∧
    (3 ≤ (jsTrim "robe").length) ∧
    (analyzeVintedCategory "robe" "x" none (.error "down")).apiCall =
      some ("robe", "x") :=
  ⟨by decide,
    (short_title_never_calls_classifier " ab " "x" (some sampleCat) (.error "down")).1
      (by decide),
    by decide,
    (short_title_never_calls_classifier "robe" "x" none (.error "down")).2
      (by decide)⟩

/-- C3: with a primary candidate present, the preview always renders the
detected category card (even at low confidence — nothing is suppressed),
and its presentation tier is `high` exactly when confidence ≥ 0.7,
`medium` exactly when 0.4 ≤ confidence < 0.7, and `low` exactly when
confidence < 0.4. -/
theorem confidence_tiers_thresholds
    (titleRaw descRaw : String) (prev : Option Category)
    (r : ClassificationResult) (cat : Category)
    (hlen : 3 ≤ (jsTrim titleRaw).length)
    (hcat : r.suggested_category = some cat) :
    (analyzeVintedCategory titleRaw descRaw prev (.ok r)).preview =
      .detected cat (confidenceClass r.confidence) (confidenceText r.confidence)
        (round (r.confidence * 100)) r.detected_gender r.alternatives ∧
    (confidenceClass r.confidence = "confidence-high" ↔ 7/10 ≤ r.confidence) ∧
    (confidenceClass r.confidence = "confidence-medium" ↔
      4/10 ≤ r.confidence ∧ r.confidence < 7/10) ∧
    (confidenceClass r.confidence = "confidence-low" ↔ r.confidence < 4/10) := by
  have h3 : ¬ ((jsTrim titleRaw).length < 3) := by omega
  refine ⟨by simp [analyzeVintedCategory, h3, hcat], ?_, ?_, ?_⟩
  · unfold confidenceClass
    split_ifs with h1 h2
    · exact iff_of_true rfl h1
    · exact iff_of_false (by decide) h1
    · exact iff_of_false (by decide) h1
  · unfold confidenceClass
    split_ifs with h1 h2
    · exact iff_of_false (by decide) fun hc => not_le.2 hc.2 h1
    · exact iff_of_true rfl ⟨h2, not_le.1 h1⟩
    · exact iff_of_false (by decide) fun hc => h2 hc.1
  · unfold confidenceClass
    split_ifs with h1 h2
    · exact iff_of_false (by decide)
        fun hc => not_le.2 hc (le_trans (by norm_num) h1)
    · exact iff_of_false (by decide) fun hc => not_le.2 hc h2
    · exact iff_of_true rfl (not_le.1 h2)

/-- Witness for C3: a concrete result with confidence 0.3 is still rendered
as a detected category, in the `low` tier. -/
theorem confidence_tiers_thresholds_witness :
    (3 ≤ (jsTrim "robe").length) ∧
    sampleLowMatch.suggested_category = some sampleCat ∧
    (analyzeVintedCategory "robe" "" none (.ok sampleLowMatch)).preview =
      .detected sampleCat (confidenceClass sampleLowMatch.confidence)
        (confidenceText sampleLowMatch.confidence)
        (round (sampleLowMatch.confidence * 100))
        sampleLowMatch.detected_gender sampleLowMatch.alternatives ∧
    (confidenceClass sampleLowMatch.confidence = "confidence-low" ↔
      sampleLowMatch.confidence < 4/10) :=
  ⟨by decide, rfl,
    (confidence_tiers_thresholds "robe" "" none sampleLowMatch sampleCat
      (by decide) rfl).1,
    (confidence_tiers_thresholds "robe" "" none sampleLowMatch sampleCat
      (by decide) rfl).2.2.2⟩

/-- C6: when the classification result carries no primary candidate, the
caller shows the result's message as a warning (with the literal fallback
text when the message is absent) and resets `this.detectedCategory` to
`null`, for any previously stored category. -/
theorem no_candidate_shows_message_and_resets
    (titleRaw descRaw : String) (prev : Option Category)
    (r : ClassificationResult)
    (hlen : 3 ≤ (jsTrim titleRaw).length)
    (hnone : r.suggested_category = none) :
    (analyzeVintedCategory titleRaw descRaw prev (.ok r)).preview =
      .warn (jsOrElse r.message "Impossible de détecter la catégorie") ∧
    (r.message = none →
      (analyzeVintedCategory titleRaw descRaw prev (.ok r)).preview =
        .warn "Impossible de détecter la catégorie") ∧
    (analyzeVintedCategory titleRaw descRaw prev (.ok r)).detectedCategory = none := by
  have h3 : ¬ ((jsTrim titleRaw).length < 3) := by omega
  refine ⟨by simp [analyzeVintedCategory, h3, hnone], ?_, ?_⟩
  · intro hm
    simp [analyzeVintedCategory, h3, hnone, hm, jsOrElse]
  · simp [analyzeVintedCategory, h3, hnone]

/-- Witness for C6: a concrete no-candidate result replaces a previously
detected category with `null` and shows the backend's message. -/
theorem no_candidate_shows_message_and_resets_witness :
    (3 ≤ (jsTrim "robe").length) ∧
    sampleNoMatch.suggested_category = none ∧
    (analyzeVintedCategory "robe" "" (some sampleCat) (.ok sampleNoMatch)).preview =
      .warn (jsOrElse sampleNoMatch.message "Impossible de détecter la catégorie") ∧
    (analyzeVintedCategory "robe" "" (some sampleCat) (.ok sampleNoMatch)).detectedCategory =
      none :=
  ⟨by decide, rfl,
    (no_candidate_shows_message_and_resets "robe" "" (some sampleCat) sampleNoMatch
      (by decide) rfl).1,
    (no_candidate_shows_message_and_resets "robe" "" (some sampleCat) sampleNoMatch
      (by decide) rfl).2.2⟩

/-- C5: the debounce installed on the title/description inputs coalesces
bursts.  For any burst of input events whose consecutive gaps are all under
500 ms, exactly one timer survives, so `analyzeVintedCategory` is scheduled
exactly once, 500 ms after the last event of the burst. -/
theorem debounce_coalesces_burst
    (t : ℕ) (ts : List ℕ)
    (hgaps : List.Chain' (fun a b => b - a < 500) (t :: ts)) :
    debounceFires 500 (t :: ts) = [(t :: ts).getLastD 0 + 500] := by
  induction ts generalizing t with
  | nil => rfl
  | cons t2 ts ih =>
    rw [List.chain'_cons] at hgaps
    simp only [debounceFires, hgaps.1, if_true, List.getLastD_cons]
    rw [ih t2 hgaps.2, List.getLastD_cons]

/-- Witness for C5: a concrete three-event burst with gaps 100 ms and
300 ms produces a single fire at 900 ms. -/
theorem debounce_coalesces_burst_witness :
    List.Chain' (fun a b => b - a < 500) [0, 100, 400] ∧
    debounceFires 500 [0, 100, 400] = [900] :=
  ⟨List.Chain.cons (by decide) (List.Chain.cons (by decide) List.Chain.nil),
    debounce_coalesces_burst 0 [100, 400]
      (List.Chain.cons (by decide) (List.Chain.cons (by decide) List.Chain.nil))⟩

/-- C10: the pending-upload invariant of `handleImageUpload`.  The files
sent to `api.uploadImages` are exactly the input files whose MIME type
passes the whitelist (so every uploaded file is validated); when no file
passes, no upload request is made and the stored list is unchanged; and
every element of the resulting `this.uploadedImages` either was already
stored or comes from the server's response to that validated-only
request. -/
theorem uploaded_images_all_validated
    (files : List JsFile) (stored : List ImageRec)
    (apiUpload : List JsFile → Except String (List ImageRec)) :
    (∀ fs, (handleImageUpload files stored apiUpload).uploadRequested = some fs →
      fs = files.filter (fun f => validImageTypes.contains f.type) ∧
      ∀ f ∈ fs, validImageTypes.contains f.type = true) ∧
    (files.filter (fun f => validImageTypes.contains f.type) = [] →
      (handleImageUpload files stored apiUpload).uploadRequested = none ∧
      (handleImageUpload files stored apiUpload).newUploadedImages = stored) ∧
    (∀ img ∈ (handleImageUpload files stored apiUpload).newUploadedImages,
      img ∈ stored ∨
      ∃ imgs, apiUpload (files.filter (fun f => validImageTypes.contains f.type)) =
          .ok imgs ∧ img ∈ imgs) := by
  refine ⟨?_, ?_, ?_⟩
  · intro fs hfs
    simp only [handleImageUpload] at hfs
    split at hfs
    · exact absurd hfs (by simp)
    · split at hfs <;> injection hfs with hfs <;> subst hfs
      · exact ⟨rfl, fun f hf => (List.mem_filter.1 hf).2⟩
      · exact ⟨rfl, fun f hf => (List.mem_filter.1 hf).2⟩
  · intro hempty
    have hlen : (files.filter fun file => validImageTypes.contains file.type).length = 0 := by
      rw [hempty]; rfl
    simp only [handleImageUpload]
    rw [if_pos hlen]
    exact ⟨rfl, rfl⟩
  · intro img hmem
    simp only [handleImageUpload] at hmem
    split at hmem
    · exact Or.inl hmem
    · split at hmem
      · exact Or.inl hmem
      · rename_i uploaded hok
        rcases List.mem_append.1 hmem with h | h
        · exact Or.inl h
        · exact Or.inr ⟨uploaded, hok, h⟩

/-- Witness for C10: a concrete mixed file list uploads only the image
files, and the stored record is traced back to the server response for
them. -/
theorem uploaded_images_all_validated_witness :
    (handleImageUpload [⟨"a.png", "image/png"⟩, ⟨"b.txt", "text/plain"⟩] []
        (fun fs => .ok (fs.map fun f => ⟨1, f.name⟩))).uploadRequested =
      some [⟨"a.png", "image/png"⟩] ∧
    ([⟨"a.png", "image/png"⟩] =
      ([⟨"a.png", "image/png"⟩, ⟨"b.txt", "text/plain"⟩] : List JsFile).filter
        (fun f => validImageTypes.contains f.type) ∧
     ∀ f ∈ ([⟨"a.png", "image/png"⟩] : List JsFile),
       validImageTypes.contains f.type = true) :=
  ⟨rfl,
    (uploaded_images_all_validated [⟨"a.png", "image/png"⟩, ⟨"b.txt", "text/plain"⟩] []
      (fun fs => .ok (fs.map fun f => ⟨1, f.name⟩))).1
      [⟨"a.png", "image/png"⟩] rfl⟩

/-- C9: every `ApiClient.request` that sees an HTTP 401 response clears the
stored token, redirects to the login page and throws `Session expirée`; in
particular its result is an error, so no response data reaches the caller
from an unauthorized response. -/
theorem unauthorized_clears_token_and_throws {α : Type}
    (st : ApiState) (resp : HttpResponse α) (h : resp.status = 401) :
    ApiClient.request st resp =
      { state := { token := none }, redirectedToLogin := true,
        result := .error "Session expirée" } := by
  simp [ApiClient.request, h]

/-- Witness for C9: a concrete 401 response with a live token. -/
theorem unauthorized_clears_token_and_throws_witness :
    (HttpResponse.mk 401 none 7 : HttpResponse ℕ).status = 401 ∧
    ApiClient.request { token := some "tok" } (HttpResponse.mk 401 none 7) =
      { state := { token := none }, redirectedToLogin := true,
        result := .error "Session expirée" } :=
  ⟨rfl, unauthorized_clears_token_and_throws { token := some "tok" } _ rfl⟩

/-- C4: `translateStatus` translates exactly the seven status literals
`draft, scheduled, pending, publishing, published, failed, deleted` to
French labels, and any other status string has no translation entry (it is
returned unchanged by the `|| status` fallback). -/
theorem status_vocabulary_exact :
    translateStatus "draft" = "Brouillon" ∧
    translateStatus "scheduled" = "Planifié" ∧
    translateStatus "pending" = "En attente" ∧
    translateStatus "publishing" = "Publication..." ∧
    translateStatus "published" = "Publié" ∧
    translateStatus "failed" = "Échec" ∧
    translateStatus "deleted" = "Supprimé" ∧
    ∀ s : String,
      s ∉ ["draft", "scheduled", "pending", "publishing", "published",
           "failed", "deleted"] →
      translateStatus s = s := by
  refine ⟨rfl, rfl, rfl, rfl, rfl, rfl, rfl, ?_⟩
  intro s hs
  simp only [List.mem_cons, List.not_mem_nil, or_false, not_or] at hs
  obtain ⟨h1, h2, h3, h4, h5, h6, h7⟩ := hs
  unfold translateStatus
  split <;> simp_all

/-- Witness for C4: a status literal outside the vocabulary is returned
unchanged. -/
theorem status_vocabulary_exact_witness :
    ("archived" ∉ ["draft", "scheduled", "pending", "publishing",
      "published", "failed", "deleted"]) ∧
    translateStatus "archived" = "archived" :=
  ⟨by decide, status_vocabulary_exact.2.2.2.2.2.2.2 "archived" (by decide)⟩

/-- C1: when the Vinted platform is targeted but no category has been
detected, `handleCreateListing` never calls `api.createListing` (and hence
never `api.publishListing` either); it shows the warning toast and stops,
for every form content, image list and backend behaviour. -/
theorem vinted_without_category_blocks_submission
    (env : JsEnv) (form : CreateForm) (uploadedImages : List ImageRec)
    (apiCreate : CreateData → Except String Listing)
    (apiPublish : ℕ → Except String Unit)
    (hv : form.postVinted = true) :
    handleCreateListing env form none uploadedImages apiCreate apiPublish =
      { requestSent := none, publishRequested := none,
        toasts := [{ message := "Impossible de détecter la catégorie Vinted. Veuillez préciser le titre.",
                     type := "warning" }],
        formReset := false } := by
  simp [handleCreateListing, buildCreateData, hv]

/-- Witness for C1: a concrete Vinted-targeting submission with no detected
category is blocked. -/
theorem vinted_without_category_blocks_submission_witness :
    sampleForm.postVinted = true ∧
    handleCreateListing sampleEnv sampleForm none []
        (fun _ => .ok { id := 1 }) (fun _ => .ok ()) =
      { requestSent := none, publishRequested := none,
        toasts := [{ message := "Impossible de détecter la catégorie Vinted. Veuillez préciser le titre.",
                     type := "warning" }],
        formReset := false } :=
  ⟨rfl, vinted_without_category_blocks_submission sampleEnv sampleForm [] _ _ rfl⟩

/-- C7: an empty image list does not block submission.  Whenever the Vinted
guard passes, `handleCreateListing` sends the create request, and the
`image_ids` of the payload are exactly the ids of `this.uploadedImages` in
their stored (upload) order — in particular, with zero uploaded images the
request is sent with `image_ids = []`. -/
theorem empty_image_list_not_rejected
    (env : JsEnv) (form : CreateForm) (detected : Option Category)
    (uploadedImages : List ImageRec)
    (apiCreate : CreateData → Except String Listing)
    (apiPublish : ℕ → Except String Unit)
    (hguard : (form.postVinted && detected.isNone) = false) :
    (handleCreateListing env form detected uploadedImages apiCreate apiPublish).requestSent =
      some (buildCreateData env form detected uploadedImages) ∧
    (buildCreateData env form detected uploadedImages).image_ids =
      uploadedImages.map (·.id) := by
  refine ⟨?_, rfl⟩
  have hg : ((buildCreateData env form detected uploadedImages).post_to_vinted
      && detected.isNone) = false := hguard
  unfold handleCreateListing
  simp only [hg, Bool.false_eq_true, if_false]
  rcases h : apiCreate (buildCreateData env form detected uploadedImages) with msg | listing
  · simp [h]
  · simp only [h]
    split
    · rcases hp : apiPublish listing.id with m | u <;> simp [hp]
    · simp

/-- Witness for C7: a concrete submission with zero uploaded images passes
the guard and sends the request with an empty `image_ids`. -/
theorem empty_image_list_not_rejected_witness :
    ((sampleForm.postVinted && (some sampleCat).isNone) = false) ∧
    (handleCreateListing sampleEnv sampleForm (some sampleCat) []
        (fun _ => .ok { id := 1 }) (fun _ => .ok ())).requestSent =
      some (buildCreateData sampleEnv sampleForm (some sampleCat) []) ∧
    (buildCreateData sampleEnv sampleForm (some sampleCat) []).image_ids = [] :=
  ⟨rfl, empty_image_list_not_rejected sampleEnv sampleForm (some sampleCat) []
    (fun _ => .ok { id := 1 }) (fun _ => .ok ()) rfl⟩

/-- C8: for a successful creation, immediate publication happens exactly
when no schedule value was entered.  With a schedule value the payload
carries `scheduled_at` (the ISO rendering of the entered time) and
`api.publishListing` is not called; without one, `scheduled_at` is omitted
and `api.publishListing` is called with the created listing's id. -/
theorem publish_iff_unscheduled
    (env : JsEnv) (form : CreateForm) (detected : Option Category)
    (uploadedImages : List ImageRec)
    (apiCreate : CreateData → Except String Listing)
    (apiPublish : ℕ → Except String Unit) (listing : Listing)
    (hguard : (form.postVinted && detected.isNone) = false)
    (hok : apiCreate (buildCreateData env form detected uploadedImages) = .ok listing) :
    (form.scheduleValue = "" →
      (buildCreateData env form detected uploadedImages).scheduled_at = none ∧
      (handleCreateListing env form detected uploadedImages apiCreate apiPublish).publishRequested =
        some listing.id) ∧
    (form.scheduleValue ≠ "" →
      (buildCreateData env form detected uploadedImages).scheduled_at =
        some (env.toISO form.scheduleValue) ∧
      (handleCreateListing env form detected uploadedImages apiCreate apiPublish).publishRequested =
        none) := by
  have hg : ((buildCreateData env form detected uploadedImages).post_to_vinted
      && detected.isNone) = false := hguard
  constructor <;> intro hs
  · constructor
    · simp [buildCreateData, hs]
    · unfold handleCreateListing
      simp only [hg, Bool.false_eq_true, if_false, hok]
      simp only [hs, if_pos]
      rcases hp : apiPublish listing.id with m | u <;> simp [hp]
  · constructor
    · simp [buildCreateData, hs]
    · unfold handleCreateListing
      simp only [hg, Bool.false_eq_true, if_false, hok]
      simp [hs]

/-- Witness for C8: a concrete unscheduled submission is published
immediately after creation, with no `scheduled_at` in the payload. -/
theorem publish_iff_unscheduled_witness :
    ((sampleForm.postVinted && (some sampleCat).isNone) = false) ∧
    ((fun _ => Except.ok { id := 5 } : CreateData → Except String Listing)
      (buildCreateData sampleEnv sampleForm (some sampleCat) []) = .ok { id := 5 }) ∧
    (sampleForm.scheduleValue = "") ∧
    ((buildCreateData sampleEnv sampleForm (some sampleCat) []).scheduled_at = none ∧
      (handleCreateListing sampleEnv sampleForm (some sampleCat) []
        (fun _ => .ok { id := 5 }) (fun _ => .ok ())).publishRequested = some 5) :=
  ⟨rfl, rfl, rfl,
    (publish_iff_unscheduled sampleEnv sampleForm (some sampleCat) []
      (fun _ => .ok { id := 5 }) (fun _ => .ok ()) { id := 5 } rfl rfl).1 rfl⟩
